import Mathlib

/-!
# Postal-code lookup race (`main.go`)

A shallow embedding of the program in `src/main.go`:

* the two provider clients `fetchFromBrasilAPI` and `fetchFromViaCEP`, as functions of what
  `net/http` and `io.ReadAll` answer for the requested URL;
* the two goroutines of `main`, each sending one `Result` on `resultChan`;
* the `for`/`select` loop of `main`, as a function of the sequence of events the `select`
  statement consumes (a `Result` received from `resultChan`, or `ctx.Done()`);
* the text written to standard output.

A Go `error` is represented by its message (`Error()`), a nil error by `none`.
-/

namespace CepRace

/-! ## Data model -/

/-- A non-nil Go `error`, represented by the text `Error()` returns. -/
abbrev GoError := String

/-- The struct `BrasilAPIResponse`. -/
structure BrasilAPIResponse where
  Cep : String
  State : String
  City : String
  Neighborhood : String
  Street : String
deriving DecidableEq, Repr

/-- The struct `ViaCEPResponse`. -/
structure ViaCEPResponse where
  Cep : String
  Logradouro : String
  Complemento : String
  Bairro : String
  Localidade : String
  Uf : String
deriving DecidableEq, Repr

/-- The zero value of `BrasilAPIResponse` (`var result BrasilAPIResponse`). -/
def BrasilAPIResponse.zero : BrasilAPIResponse := ⟨"", "", "", "", ""⟩

/-- The zero value of `ViaCEPResponse` (`var result ViaCEPResponse`). -/
def ViaCEPResponse.zero : ViaCEPResponse := ⟨"", "", "", "", "", ""⟩

/-- The dynamic values stored in the field `Data interface{}` of `Result`: main stores a
`BrasilAPIResponse` or a `ViaCEPResponse` there. -/
inductive Data where
  | brasilAPI (r : BrasilAPIResponse)
  | viaCEP (r : ViaCEPResponse)
deriving DecidableEq, Repr

/-- The local struct `Result` of `main`. -/
structure Result where
  APIName : String
  Data : Data
  Error : Option GoError
deriving DecidableEq, Repr

/-- What one execution of the `select` statement of `main` consumes: a value received from
`resultChan`, or the closing of `ctx.Done()`. -/
inductive Event where
  | result (res : Result)
  | done
deriving DecidableEq, Repr

/-! ## Output -/

/-- The verb `%+v` applied to the struct stored in `Data`: field names and values, separated by
blanks, between braces. -/
def fmtPlusV : Data → String
  | .brasilAPI r =>
      "\x7bCep:" ++ r.Cep ++ " State:" ++ r.State ++ " City:" ++ r.City
        ++ " Neighborhood:" ++ r.Neighborhood ++ " Street:" ++ r.Street ++ "\x7d"
  | .viaCEP r =>
      "\x7bCep:" ++ r.Cep ++ " Logradouro:" ++ r.Logradouro ++ " Complemento:" ++ r.Complemento
        ++ " Bairro:" ++ r.Bairro ++ " Localidade:" ++ r.Localidade ++ " Uf:" ++ r.Uf ++ "\x7d"

/-- The text of `fmt.Println("Por favor, forneça o CEP como argumento.")`. -/
def usageText : String := "Por favor, forneça o CEP como argumento.\n"

/-- The text of `fmt.Println("Tempo limite de 1 segundo excedido. Erro de timeout.")`. -/
def timeoutText : String := "Tempo limite de 1 segundo excedido. Erro de timeout.\n"

/-- The text of the two `fmt.Printf` calls of the success branch, lines 62 and 63. -/
def successText (res : Result) : String :=
  "Resposta recebida da API " ++ res.APIName ++ ":\n" ++ (fmtPlusV res.Data ++ "\n")

/-- The message built by `fmt.Errorf("erro ao buscar dados da API %s: %v", ...)`, line 67. -/
def errorEntry (apiName : String) (err : GoError) : GoError :=
  "erro ao buscar dados da API " ++ apiName ++ ": " ++ err

/-- The text of `fmt.Println(firstError)`, line 79. -/
def failureText (firstError : GoError) : String := firstError ++ "\n"

/-! ## The coordinator loop -/

/-- The assignment to `firstError` in the failure branch, lines 66 to 70. -/
def accumulate (firstError : Option GoError) (apiName : String) (err : GoError) : Option GoError :=
  match firstError with
  | none => some (errorEntry apiName err)
  | some prev => some (prev ++ "\n" ++ errorEntry apiName err)

/-- How the loop `for i := 0; i < 2; i++ { select ... }` ends. -/
inductive LoopExit where
  /-- A `return` inside the loop, after writing `stdout`. -/
  | returned (stdout : String)
  /-- The condition `i < 2` failed; control continues after the loop with `firstError`. -/
  | finished (firstError : Option GoError)
  /-- The `select` is still waiting: the event sequence ended before the loop did. -/
  | waiting
deriving DecidableEq, Repr

/-- The loop of lines 58 to 76, from the state `(i, firstError)`, on the events consumed by the
successive `select` statements. -/
def selectLoop (i : Nat) (firstError : Option GoError) : List Event → LoopExit
  | [] => if i < 2 then .waiting else .finished firstError
  | ev :: rest =>
    if i < 2 then
      match ev with
      | .result res =>
        match res.Error with
        | none => .returned (successText res)
        | some err => selectLoop (i + 1) (accumulate firstError res.APIName err) rest
      | .done => .returned timeoutText
    else .finished firstError

/-- Lines 57 to 80 of `main`: `var firstError error`, the loop, and the final
`if firstError != nil`. The value is the text written to standard output, `none` while the
`select` is still waiting for an event. -/
def coordinator (events : List Event) : Option String :=
  match selectLoop 0 none events with
  | .returned stdout => some stdout
  | .finished (some firstError) => some (failureText firstError)
  | .finished none => some ""
  | .waiting => none

/-! ## JSON decoding

`json.Unmarshal` belongs to the Go standard library (`encoding/json`). It is modelled on the
syntax tree of the body, for a destination struct whose fields are all of type `string` with a
`json:"..."` tag, following the documentation of the package: a member whose key matches no
field is skipped, a field for which the object has no member keeps its value, `null` leaves the
destination unchanged, a value of another JSON type is an `UnmarshalTypeError` (the first one is
kept and decoding goes on), and a body that is not a JSON text is a `SyntaxError` that leaves the
destination untouched. -/

/-- A JSON value. -/
inductive Json where
  | null
  | bool (b : Bool)
  | number (literal : String)
  | string (s : String)
  | array (elems : List Json)
  | object (members : List (String × Json))

/-- The bytes read from a response body, as `json.Unmarshal` sees them: a text that is not valid
JSON (with the syntax error reported for it), or a JSON value. -/
inductive Body where
  | invalid (syntaxError : GoError)
  | json (v : Json)

/-- The name of the JSON type of a value, as `UnmarshalTypeError.Value` gives it. -/
def Json.kind : Json → String
  | .null => "null"
  | .bool _ => "bool"
  | .number _ => "number"
  | .string _ => "string"
  | .array _ => "array"
  | .object _ => "object"

/-- Case folding of one rune of a key: ASCII letters to upper case, and the two non-ASCII runes
whose simple fold is an ASCII letter (the long s and the Kelvin sign). -/
def foldRune (c : Char) : Char :=
  if c = Char.ofNat 0x17F then 'S'
  else if c = Char.ofNat 0x212A then 'K'
  else c.toUpper

/-- Case folding of a key or of a field name. -/
def foldName (s : String) : String := String.mk (s.data.map foldRune)

/-- The field a key of a JSON object is decoded into: the field whose tag is the key, otherwise
a field whose tag equals the key up to case folding. -/
def lookupField (tags : List String) (key : String) : Option String :=
  match tags.find? (fun t => t == key) with
  | some t => some t
  | none => tags.find? (fun t => foldName t == foldName key)

/-- What the decoder needs to know of a destination struct type. -/
structure StructInfo (α : Type) where
  /-- The name of the Go type. -/
  typeName : String
  /-- The `json` tags of the fields, in declaration order. -/
  tags : List String
  /-- Assignment of a string to the field with the given tag. -/
  set : α → String → String → α

/-- The text of an `UnmarshalTypeError` for a field. -/
def fieldTypeError (typeName tag : String) (v : Json) : GoError :=
  "json: cannot unmarshal " ++ v.kind ++ " into Go struct field " ++ typeName ++ "." ++ tag
    ++ " of type string"

/-- The text of an `UnmarshalTypeError` for the destination itself. -/
def valueTypeError (typeName : String) (v : Json) : GoError :=
  "json: cannot unmarshal " ++ v.kind ++ " into Go value of type main." ++ typeName

/-- The method `saveError` of the decoder: only the first error is kept. -/
def saveError (saved : Option GoError) (err : GoError) : Option GoError :=
  match saved with
  | none => some err
  | some e => some e

/-- Decoding of one member of a JSON object into the destination struct. -/
def storeMember {α : Type} (info : StructInfo α) (st : α × Option GoError)
    (member : String × Json) : α × Option GoError :=
  match lookupField info.tags member.1 with
  | none => st
  | some tag =>
    match member.2 with
    | .string s => (info.set st.1 tag s, st.2)
    | .null => st
    | v => (st.1, saveError st.2 (fieldTypeError info.typeName tag v))

/-- The call `json.Unmarshal(body, &result)`: the value of `result` afterwards, and the error. -/
def jsonUnmarshal {α : Type} (info : StructInfo α) (body : Body) (result : α) :
    α × Option GoError :=
  match body with
  | .invalid syntaxError => (result, some syntaxError)
  | .json .null => (result, none)
  | .json (.object members) => members.foldl (storeMember info) (result, none)
  | .json v => (result, some (valueTypeError info.typeName v))

/-- Assignment to the field of `BrasilAPIResponse` with the given `json` tag. -/
def BrasilAPIResponse.set (r : BrasilAPIResponse) (tag value : String) : BrasilAPIResponse :=
  if tag = "cep" then { r with Cep := value }
  else if tag = "state" then { r with State := value }
  else if tag = "city" then { r with City := value }
  else if tag = "neighborhood" then { r with Neighborhood := value }
  else if tag = "street" then { r with Street := value }
  else r

/-- Assignment to the field of `ViaCEPResponse` with the given `json` tag. -/
def ViaCEPResponse.set (r : ViaCEPResponse) (tag value : String) : ViaCEPResponse :=
  if tag = "cep" then { r with Cep := value }
  else if tag = "logradouro" then { r with Logradouro := value }
  else if tag = "complemento" then { r with Complemento := value }
  else if tag = "bairro" then { r with Bairro := value }
  else if tag = "localidade" then { r with Localidade := value }
  else if tag = "uf" then { r with Uf := value }
  else r

/-- The struct type `BrasilAPIResponse`, lines 13 to 19. -/
def brasilAPIInfo : StructInfo BrasilAPIResponse where
  typeName := "BrasilAPIResponse"
  tags := ["cep", "state", "city", "neighborhood", "street"]
  set := BrasilAPIResponse.set

/-- The struct type `ViaCEPResponse`, lines 21 to 28. -/
def viaCEPInfo : StructInfo ViaCEPResponse where
  typeName := "ViaCEPResponse"
  tags := ["cep", "logradouro", "complemento", "bairro", "localidade", "uf"]
  set := ViaCEPResponse.set

/-! ## The provider clients -/

/-- An HTTP response, as far as the clients look at it: the status code, and what
`io.ReadAll(resp.Body)` returns. -/
structure Response where
  StatusCode : Int
  Body : Except GoError Body

/-- The answers of `net/http`, for a method and a URL. -/
structure HTTP where
  /-- The error of `http.NewRequestWithContext(ctx, method, url, nil)`. -/
  newRequest : String → String → Option GoError
  /-- The result of `http.DefaultClient.Do(req)` for the request built from method and URL. -/
  roundTrip : String → String → Except GoError Response

/-- The URL requested by `fetchFromBrasilAPI`, line 85. -/
def brasilAPIURL (cep : String) : String := "https://brasilapi.com.br/api/cep/v1/" ++ cep

/-- The URL requested by `fetchFromViaCEP`, line 107. -/
def viaCEPURL (cep : String) : String := "http://viacep.com.br/ws/" ++ cep ++ "/json/"

/-- The message of `fmt.Errorf("status code: %d", resp.StatusCode)`. -/
def statusError (code : Int) : GoError := "status code: " ++ toString code

/-- The function `fetchFromBrasilAPI`, lines 83 to 103. -/
def fetchFromBrasilAPI (net : HTTP) (cep : String) : BrasilAPIResponse × Option GoError :=
  let result := BrasilAPIResponse.zero
  match net.newRequest "GET" (brasilAPIURL cep) with
  | some err => (result, some err)
  | none =>
    match net.roundTrip "GET" (brasilAPIURL cep) with
    | .error err => (result, some err)
    | .ok resp =>
      if resp.StatusCode ≠ 200 then (result, some (statusError resp.StatusCode))
      else
        match resp.Body with
        | .error err => (result, some err)
        | .ok body => jsonUnmarshal brasilAPIInfo body result

/-- The function `fetchFromViaCEP`, lines 105 to 125. -/
def fetchFromViaCEP (net : HTTP) (cep : String) : ViaCEPResponse × Option GoError :=
  let result := ViaCEPResponse.zero
  match net.newRequest "GET" (viaCEPURL cep) with
  | some err => (result, some err)
  | none =>
    match net.roundTrip "GET" (viaCEPURL cep) with
    | .error err => (result, some err)
    | .ok resp =>
      if resp.StatusCode ≠ 200 then (result, some (statusError resp.StatusCode))
      else
        match resp.Body with
        | .error err => (result, some err)
        | .ok body => jsonUnmarshal viaCEPInfo body result

/-! ## The goroutines and `main` -/

/-- The two providers. -/
inductive Provider where
  | brasilAPI
  | viaCEP
deriving DecidableEq, Repr

/-- The name a provider's goroutine puts in `APIName`. -/
def Provider.apiName : Provider → String
  | .brasilAPI => "BrasilAPI"
  | .viaCEP => "ViaCEP"

/-- The values sent on `resultChan` by the goroutine of lines 47 to 50, in order. -/
def brasilAPITask (net : HTTP) (cep : String) : List Result :=
  let (data, err) := fetchFromBrasilAPI net cep
  [{ APIName := "BrasilAPI", Data := .brasilAPI data, Error := err }]

/-- The values sent on `resultChan` by the goroutine of lines 52 to 55, in order. -/
def viaCEPTask (net : HTTP) (cep : String) : List Result :=
  let (data, err) := fetchFromViaCEP net cep
  [{ APIName := "ViaCEP", Data := .viaCEP data, Error := err }]

/-- The capacity of `resultChan`, line 45. -/
def resultChanCapacity : Nat := 2

/-- What the next `select` of `main` consumes, as decided by timing: the values sent by one of
the goroutines, or the deadline. -/
inductive Arrival where
  | sent (p : Provider)
  | deadline
deriving DecidableEq, Repr

/-- The events an arrival stands for. -/
def arrivalEvents (net : HTTP) (cep : String) : Arrival → List Event
  | .sent .brasilAPI => (brasilAPITask net cep).map Event.result
  | .sent .viaCEP => (viaCEPTask net cep).map Event.result
  | .deadline => [Event.done]

/-- An execution of `main`: the goroutines started, each with the provider it queries and the
postal code it was given, and the text written to standard output (`none` while the `select`
is still waiting). -/
structure MainRun where
  spawned : List (Provider × String)
  stdout : Option String
deriving DecidableEq, Repr

/-- The function `main`, for the argument vector `os.Args`, the answers of the network and the
order in which results and deadline reach the `select`. -/
def main (args : List String) (net : HTTP) (arrivals : List Arrival) : MainRun :=
  if h : args.length < 2 then
    { spawned := [], stdout := some usageText }
  else
    let cep := args.get ⟨1, by omega⟩
    { spawned := [(.brasilAPI, cep), (.viaCEP, cep)],
      stdout := coordinator (arrivals.flatMap (arrivalEvents net cep)) }

/-! ## The `select` statement

A Go `select` proceeds with one of the cases that are ready, chosen at random when several are;
it waits when none is. -/

/-- What the `select` of `main` depends on: the buffer of `resultChan`, oldest value first, and
whether `ctx.Done()` is closed. -/
structure SelectState where
  resultChan : List Result
  ctxDone : Bool
deriving DecidableEq, Repr

/-- The events the `select` of lines 59 to 75 may consume in a state. -/
def selectReady (s : SelectState) : List Event :=
  (match s.resultChan with
    | [] => []
    | res :: _ => [Event.result res])
  ++ (if s.ctxDone then [Event.done] else [])

/-- The number of newline characters of a text, that is the number of lines it prints. -/
def lineCount (s : String) : Nat := s.data.count '\n'

/-! ## Classification of responses -/

/-- The classification of a provider's answer: `outcome` is the pair (record, error) a client
returns when building the request gave `requestError` and `http.DefaultClient.Do` gave
`transport`; `zero` is the empty record and `parse` the decoding of a body. -/
def Classifies {α : Type} (zero : α) (parse : Body → α × Option GoError)
    (requestError : Option GoError) (transport : Except GoError Response)
    (outcome : α × Option GoError) : Prop :=
  (∀ err, requestError = some err → outcome = (zero, some err))
  ∧ (∀ err, requestError = none → transport = .error err → outcome = (zero, some err))
  ∧ (∀ resp, requestError = none → transport = .ok resp → resp.StatusCode ≠ 200 →
      outcome = (zero, some ("status code: " ++ toString resp.StatusCode)))
  ∧ (∀ resp err, requestError = none → transport = .ok resp → resp.StatusCode = 200 →
      resp.Body = .error err → outcome = (zero, some err))
  ∧ (∀ resp body err, requestError = none → transport = .ok resp → resp.StatusCode = 200 →
      resp.Body = .ok body → (parse body).2 = some err → outcome.2 = some err)
  ∧ (∀ resp body, requestError = none → transport = .ok resp → resp.StatusCode = 200 →
      resp.Body = .ok body → (parse body).2 = none → outcome = ((parse body).1, none))

/-- Whether a JSON value can be stored in a field of type `string`. -/
def Json.isStringOrNull : Json → Bool
  | .string _ => true
  | .null => true
  | _ => false

/-- Whether a JSON value can be stored in a struct. -/
def Json.isObjectOrNull : Json → Bool
  | .object _ => true
  | .null => true
  | _ => false

/-- What a client returns for a body read from a response with status 200, for a destination
struct described by `info`: the error is the one of the decoder, which is non-nil for a body
that is not a JSON text, for a value that is neither an object nor `null`, and for an object
with a member for an expected field whose value is neither a string nor `null`; an object none
of whose keys is an expected field gives the empty record and a nil error. -/
def DecodesAs {α : Type} (info : StructInfo α) (zero : α) (body : Body)
    (outcome : α × Option GoError) : Prop :=
  outcome = jsonUnmarshal info body zero
  ∧ (∀ syntaxError, body = .invalid syntaxError → outcome = (zero, some syntaxError))
  ∧ (∀ v, body = .json v → v.isObjectOrNull = false → outcome.2 ≠ none)
  ∧ (∀ members, body = .json (.object members) →
      (∃ m ∈ members, lookupField info.tags m.1 ≠ none ∧ m.2.isStringOrNull = false) →
      outcome.2 ≠ none)
  ∧ (∀ members, body = .json (.object members) →
      (∀ m ∈ members, lookupField info.tags m.1 = none) → outcome = (zero, none))

/-! ## Sample values -/

/-- A network on which every request is answered with status 200 and the body
`{"erro": true}`. -/
def erroReplyNet : HTTP where
  newRequest := fun _ _ => none
  roundTrip := fun _ _ => .ok ⟨200, .ok (.json (.object [("erro", .bool true)]))⟩

/-- A network on which every request is answered with the given status and an empty object. -/
def statusNet (code : Int) : HTTP where
  newRequest := fun _ _ => none
  roundTrip := fun _ _ => .ok ⟨code, .ok (.json (.object []))⟩


/-- A record of BrasilAPI. -/
def paulista : BrasilAPIResponse :=
  ⟨"01311000", "SP", "São Paulo", "Bela Vista", "Avenida Paulista"⟩

/-- A record of ViaCEP. -/
def paulistaViaCEP : ViaCEPResponse :=
  ⟨"01311-000", "Avenida Paulista", "", "Bela Vista", "São Paulo", "SP"⟩

/-- A successful result of the BrasilAPI goroutine. -/
def brasilOK : Result := ⟨"BrasilAPI", .brasilAPI paulista, none⟩

/-- A successful result of the ViaCEP goroutine. -/
def viaCEPOK : Result := ⟨"ViaCEP", .viaCEP paulistaViaCEP, none⟩

/-- A failed result of the BrasilAPI goroutine. -/
def brasilFail : Result := ⟨"BrasilAPI", .brasilAPI BrasilAPIResponse.zero, some (statusError 500)⟩

/-- A failed result of the ViaCEP goroutine. -/
def viaCEPFail : Result := ⟨"ViaCEP", .viaCEP ViaCEPResponse.zero, some (statusError 404)⟩

/-! ## Shapes of the output -/

/-- The success block of some result without error. -/
def IsSuccessOutput (out : String) : Prop :=
  ∃ res : Result, res.Error = none ∧ out = successText res

/-- The aggregated error text: two entries joined by a newline. -/
def IsFailureOutput (out : String) : Prop :=
  ∃ n₁ e₁ n₂ e₂ : String, out = failureText (errorEntry n₁ e₁ ++ "\n" ++ errorEntry n₂ e₂)

/-- The timeout notice. -/
def IsTimeoutOutput (out : String) : Prop := out = timeoutText

/-- The events are failed results only. -/
def AllFailed (events : List Event) : Prop :=
  ∀ ev ∈ events, ∃ f : Result, ev = Event.result f ∧ f.Error ≠ none

/-- The text `out` is the Success outcome of the events: the success block, and nothing else,
of the result without error that is consumed first, as first or second event, after failed
results only. -/
def IsSuccessOf (events : List Event) (out : String) : Prop :=
  ∃ (pre rest : List Event) (res : Result),
    events = pre ++ Event.result res :: rest ∧ pre.length < 2 ∧ AllFailed pre
      ∧ res.Error = none ∧ out = successText res

/-- The text `out` is the aggregated Failure outcome of the events: the first two events are
failed results, and `out` is their two entries in that order, joined by a newline, and nothing
else. -/
def IsFailureOf (events : List Event) (out : String) : Prop :=
  ∃ (r₁ r₂ : Result) (e₁ e₂ : GoError) (rest : List Event),
    events = Event.result r₁ :: Event.result r₂ :: rest ∧ r₁.Error = some e₁
      ∧ r₂.Error = some e₂
      ∧ out = failureText (errorEntry r₁.APIName e₁ ++ "\n" ++ errorEntry r₂.APIName e₂)

/-- The text `out` is the Timeout outcome of the events: the deadline is consumed as first or
second event, after failed results only, and `out` is the timeout notice and nothing else. -/
def IsTimeoutOf (events : List Event) (out : String) : Prop :=
  ∃ pre rest : List Event,
    events = pre ++ Event.done :: rest ∧ pre.length < 2 ∧ AllFailed pre ∧ out = timeoutText

/-! ## Lemmas on texts -/

theorem digitChar_ne_newline : ∀ m, m < 10 → Nat.digitChar m ≠ '\n' := by decide

theorem toDigitsCore_no_newline (fuel : Nat) : ∀ (n : Nat) (ds : List Char),
    '\n' ∉ ds → '\n' ∉ Nat.toDigitsCore 10 fuel n ds := by
  induction fuel with
  | zero => intro n ds h; simpa [Nat.toDigitsCore] using h
  | succ k ih =>
    intro n ds h
    have hd : '\n' ≠ Nat.digitChar (n % 10) :=
      fun e => digitChar_ne_newline (n % 10) (Nat.mod_lt _ (by decide)) e.symm
    have hcons : '\n' ∉ Nat.digitChar (n % 10) :: ds := by
      simp only [List.mem_cons, not_or]; exact ⟨hd, h⟩
    unfold Nat.toDigitsCore
    by_cases h0 : n / 10 = 0
    · simpa [h0] using hcons
    · simpa [h0] using ih _ _ hcons

theorem no_newline_nat (n : Nat) : '\n' ∉ (toString n).data := by
  show '\n' ∉ (Nat.repr n).data
  unfold Nat.repr Nat.toDigits
  exact toDigitsCore_no_newline _ _ _ (by simp)

theorem no_newline_int (c : Int) : '\n' ∉ (toString c).data := by
  cases c with
  | ofNat m => exact no_newline_nat m
  | negSucc m =>
    show '\n' ∉ ("-" ++ toString (Nat.succ m)).data
    rw [String.data_append]
    simp only [List.mem_append, not_or]
    exact ⟨by decide, no_newline_nat _⟩

theorem no_newline_apiName (p : Provider) : '\n' ∉ p.apiName.data := by
  cases p <;> decide

theorem lineCount_append (a b : String) : lineCount (a ++ b) = lineCount a + lineCount b := by
  simp [lineCount, String.data_append]

theorem lineCount_eq_zero {s : String} (h : '\n' ∉ s.data) : lineCount s = 0 := by
  exact List.count_eq_zero_of_not_mem h

theorem lineCount_statusEntry (p : Provider) (c : Int) :
    lineCount (errorEntry p.apiName (statusError c)) = 0 := by
  apply lineCount_eq_zero
  simp only [errorEntry, statusError, String.data_append, List.mem_append, not_or]
  exact ⟨⟨⟨by decide, no_newline_apiName p⟩, by decide⟩, by decide, no_newline_int c⟩

theorem successText_head (res : Result) : (successText res).data.head? = some 'R' := by
  simp [successText, String.data_append]

theorem failureText_head (n₁ e₁ rest : String) :
    (failureText (errorEntry n₁ e₁ ++ rest)).data.head? = some 'e' := by
  simp [failureText, errorEntry, String.data_append]

theorem timeoutText_head : timeoutText.data.head? = some 'T' := by decide

theorem usageText_head : usageText.data.head? = some 'P' := by decide

theorem not_success_of_head {out : String} {c : Char} (h : out.data.head? = some c)
    (hc : c ≠ 'R') : ¬ IsSuccessOutput out := by
  rintro ⟨res, -, rfl⟩
  rw [successText_head] at h
  exact hc (Option.some.inj h).symm

theorem not_failure_of_head {out : String} {c : Char} (h : out.data.head? = some c)
    (hc : c ≠ 'e') : ¬ IsFailureOutput out := by
  rintro ⟨n₁, e₁, n₂, e₂, rfl⟩
  rw [String.append_assoc, failureText_head] at h
  exact hc (Option.some.inj h).symm

theorem not_timeout_of_head {out : String} {c : Char} (h : out.data.head? = some c)
    (hc : c ≠ 'T') : ¬ IsTimeoutOutput out := by
  intro e
  rw [IsTimeoutOutput] at e
  rw [e, timeoutText_head] at h
  exact hc (Option.some.inj h).symm

/-! ## Lemmas on the loop -/

theorem selectLoop_done (i : Nat) (hi : i < 2) (firstError : Option GoError)
    (rest : List Event) : selectLoop i firstError (.done :: rest) = .returned timeoutText := by
  simp [selectLoop, hi]

theorem selectLoop_success (i : Nat) (hi : i < 2) (firstError : Option GoError) (res : Result)
    (h : res.Error = none) (rest : List Event) :
    selectLoop i firstError (.result res :: rest) = .returned (successText res) := by
  simp [selectLoop, hi, h]

theorem selectLoop_failure (i : Nat) (hi : i < 2) (firstError : Option GoError) (res : Result)
    (err : GoError) (h : res.Error = some err) (rest : List Event) :
    selectLoop i firstError (.result res :: rest)
      = selectLoop (i + 1) (accumulate firstError res.APIName err) rest := by
  simp [selectLoop, hi, h]

theorem selectLoop_finished (i : Nat) (hi : 2 ≤ i) (firstError : Option GoError)
    (events : List Event) : selectLoop i firstError events = .finished firstError := by
  cases events <;> simp [selectLoop, Nat.not_lt.mpr hi]

theorem coordinator_done (rest : List Event) : coordinator (.done :: rest) = some timeoutText := by
  simp [coordinator, selectLoop_done]

theorem coordinator_success (res : Result) (h : res.Error = none) (rest : List Event) :
    coordinator (.result res :: rest) = some (successText res) := by
  simp [coordinator, selectLoop_success, h]

theorem coordinator_failure_done (r₁ : Result) (e₁ : GoError) (h₁ : r₁.Error = some e₁)
    (rest : List Event) : coordinator (.result r₁ :: .done :: rest) = some timeoutText := by
  simp [coordinator, selectLoop_failure _ _ _ _ _ h₁, selectLoop_done]

theorem coordinator_failure_success (r₁ : Result) (e₁ : GoError) (h₁ : r₁.Error = some e₁)
    (res : Result) (h : res.Error = none) (rest : List Event) :
    coordinator (.result r₁ :: .result res :: rest) = some (successText res) := by
  simp [coordinator, selectLoop_failure _ _ _ _ _ h₁, selectLoop_success _ _ _ _ h]

theorem coordinator_two_failures (r₁ r₂ : Result) (e₁ e₂ : GoError) (h₁ : r₁.Error = some e₁)
    (h₂ : r₂.Error = some e₂) (rest : List Event) :
    coordinator (.result r₁ :: .result r₂ :: rest)
      = some (failureText (errorEntry r₁.APIName e₁ ++ "\n" ++ errorEntry r₂.APIName e₂)) := by
  simp [coordinator, selectLoop_failure _ _ _ _ _ h₁, selectLoop_failure _ _ _ _ _ h₂,
    selectLoop_finished, accumulate]

/-- The coordinator has written its text once a deadline event was consumed or two events
were. -/
theorem coordinator_isSome (events : List Event) (h : 2 ≤ events.length ∨ Event.done ∈ events) :
    ∃ out, coordinator events = some out := by
  match events, h with
  | [], h => simp at h
  | .done :: rest, _ => exact ⟨_, coordinator_done rest⟩
  | .result r₁ :: rest, h =>
    cases h₁ : r₁.Error with
    | none => exact ⟨_, coordinator_success r₁ h₁ rest⟩
    | some e₁ =>
      match rest, h with
      | [], h => simp at h
      | .done :: rest, _ => exact ⟨_, coordinator_failure_done r₁ e₁ h₁ rest⟩
      | .result r₂ :: rest, _ =>
        cases h₂ : r₂.Error with
        | none => exact ⟨_, coordinator_failure_success r₁ e₁ h₁ r₂ h₂ rest⟩
        | some e₂ => exact ⟨_, coordinator_two_failures r₁ r₂ e₁ e₂ h₁ h₂ rest⟩

theorem failures_cases (pre : List Event)
    (hpre : ∀ ev ∈ pre, ∃ f : Result, ev = Event.result f ∧ f.Error ≠ none)
    (hlen : pre.length < 2) :
    pre = [] ∨ ∃ (f : Result) (e : GoError), f.Error = some e ∧ pre = [Event.result f] := by
  match pre, hpre, hlen with
  | [], _, _ => exact Or.inl rfl
  | [ev], hpre, _ =>
    obtain ⟨f, rfl, hf⟩ := hpre ev (by simp)
    obtain ⟨e, he⟩ := Option.ne_none_iff_exists'.mp hf
    exact Or.inr ⟨f, e, he, rfl⟩
  | _ :: _ :: _, _, hlen => simp at hlen; omega

theorem arrivalEvents_length (net : HTTP) (cep : String) (a : Arrival) :
    (arrivalEvents net cep a).length = 1 := by
  rcases a with (_ | _) | _ <;> rfl

theorem flatMap_arrivalEvents_length (net : HTTP) (cep : String) (arrivals : List Arrival) :
    (arrivals.flatMap (arrivalEvents net cep)).length = arrivals.length := by
  induction arrivals with
  | nil => rfl
  | cons a rest ih => simp [List.flatMap_cons, arrivalEvents_length, ih, Nat.add_comm]

theorem done_mem_flatMap_arrivalEvents (net : HTTP) (cep : String) (arrivals : List Arrival)
    (h : Arrival.deadline ∈ arrivals) :
    Event.done ∈ arrivals.flatMap (arrivalEvents net cep) := by
  rw [List.mem_flatMap]
  exact ⟨Arrival.deadline, h, by simp [arrivalEvents]⟩

theorem main_stdout (args : List String) (net : HTTP) (arrivals : List Arrival)
    (h : 2 ≤ args.length) :
    (main args net arrivals).stdout
      = coordinator (arrivals.flatMap (arrivalEvents net (args.get ⟨1, h⟩))) := by
  simp [main, Nat.not_lt.mpr h]

/-! ## The claims -/

/-- C1: when the coordinator loop consumes a result without error within its first two events
and before any deadline event, the output is exactly the success block of the first such result
in arrival order: the header with its provider name, then its record. No later result is printed
and no text of an earlier failure. -/
theorem first_success_is_printed (pre rest : List Event) (res : Result)
    (hpre : ∀ ev ∈ pre, ∃ f : Result, ev = Event.result f ∧ f.Error ≠ none)
    (hlen : pre.length < 2) (hres : res.Error = none) :
    coordinator (pre ++ Event.result res :: rest)
      = some ("Resposta recebida da API " ++ res.APIName ++ ":\n"
          ++ (fmtPlusV res.Data ++ "\n")) := by
  rcases failures_cases pre hpre hlen with rfl | ⟨f, e, hf, rfl⟩
  · exact coordinator_success res hres rest
  · exact coordinator_failure_success f e hf res hres rest

theorem first_success_is_printed_witness :
    coordinator [Event.result viaCEPFail, Event.result brasilOK, Event.result viaCEPOK]
      = some ("Resposta recebida da API BrasilAPI:\n"
          ++ ("\x7bCep:01311000 State:SP City:São Paulo Neighborhood:Bela Vista "
            ++ "Street:Avenida Paulista\x7d" ++ "\n")) :=
  first_success_is_printed [Event.result viaCEPFail] [Event.result viaCEPOK] brasilOK
    (by simp [viaCEPFail]) (by decide) rfl

/-- C2: when the coordinator loop consumes two failed results before the deadline, it prints one
entry "erro ao buscar dados da API <provider name>: <error>" for each, joined by a newline in
arrival order, first consumed first; when both errors are status-code errors of the two
providers, the output is exactly two lines. -/
theorem failures_joined_in_arrival_order (r₁ r₂ : Result) (e₁ e₂ : GoError)
    (rest : List Event) (h₁ : r₁.Error = some e₁) (h₂ : r₂.Error = some e₂) :
    coordinator (Event.result r₁ :: Event.result r₂ :: rest)
      = some (("erro ao buscar dados da API " ++ r₁.APIName ++ ": " ++ e₁) ++ "\n"
          ++ ("erro ao buscar dados da API " ++ r₂.APIName ++ ": " ++ e₂) ++ "\n")
    ∧ ∀ (p q : Provider) (c₁ c₂ : Int), r₁.APIName = p.apiName → r₂.APIName = q.apiName →
        e₁ = statusError c₁ → e₂ = statusError c₂ →
        ∃ out, coordinator (Event.result r₁ :: Event.result r₂ :: rest) = some out
          ∧ out = "erro ao buscar dados da API " ++ p.apiName ++ ": status code: "
              ++ toString c₁ ++ "\n" ++ "erro ao buscar dados da API " ++ q.apiName
              ++ ": status code: " ++ toString c₂ ++ "\n"
          ∧ lineCount out = 2 := by
  have hout := coordinator_two_failures r₁ r₂ e₁ e₂ h₁ h₂ rest
  refine ⟨hout, ?_⟩
  intro p q c₁ c₂ hp hq hc₁ hc₂
  refine ⟨_, hout, ?_, ?_⟩
  · subst hc₁ hc₂
    apply String.ext
    simp [failureText, errorEntry, statusError, hp, hq, String.data_append]
  · rw [hp, hq, hc₁, hc₂]
    simp only [failureText, lineCount_append, lineCount_statusEntry]
    decide

theorem failures_joined_in_arrival_order_witness :
    coordinator [Event.result viaCEPFail, Event.result brasilFail]
      = some ("erro ao buscar dados da API ViaCEP: status code: 404\n"
          ++ "erro ao buscar dados da API BrasilAPI: status code: 500\n")
    ∧ lineCount ("erro ao buscar dados da API ViaCEP: status code: 404\n"
          ++ "erro ao buscar dados da API BrasilAPI: status code: 500\n") = 2 := by
  have h := failures_joined_in_arrival_order viaCEPFail brasilFail (statusError 404)
    (statusError 500) [] rfl rfl
  obtain ⟨out, h₁, h₂, h₃⟩ := h.2 Provider.viaCEP Provider.brasilAPI 404 500 rfl rfl rfl rfl
  refine ⟨?_, by decide⟩
  rw [h.1]
  decide

/-- C3: when the coordinator loop consumes the deadline event before any success and after no
failure or one failure, the output is exactly the fixed timeout notice: the failure message
accumulated before the deadline is not printed. -/
theorem deadline_discards_failures (pre rest : List Event)
    (hpre : ∀ ev ∈ pre, ∃ f : Result, ev = Event.result f ∧ f.Error ≠ none)
    (hlen : pre.length < 2) :
    coordinator (pre ++ Event.done :: rest)
      = some "Tempo limite de 1 segundo excedido. Erro de timeout.\n" := by
  rcases failures_cases pre hpre hlen with rfl | ⟨f, e, hf, rfl⟩
  · exact coordinator_done rest
  · exact coordinator_failure_done f e hf rest

theorem deadline_discards_failures_witness :
    coordinator [Event.result brasilFail, Event.done, Event.result viaCEPOK]
      = some "Tempo limite de 1 segundo excedido. Erro de timeout.\n" :=
  deadline_discards_failures [Event.result brasilFail] [Event.result viaCEPOK]
    (by simp [brasilFail]) (by decide)

theorem allFailed_nil : AllFailed [] := by
  intro ev h
  simp at h

theorem allFailed_singleton (f : Result) (e : GoError) (h : f.Error = some e) :
    AllFailed [Event.result f] := by
  intro ev hev
  rw [List.mem_singleton] at hev
  exact ⟨f, hev, by simp [h]⟩

/-- Every text the coordinator writes is the outcome of the events it consumed. -/
theorem coordinator_outcome (events : List Event) (out : String)
    (h : coordinator events = some out) :
    IsSuccessOf events out ∨ IsFailureOf events out ∨ IsTimeoutOf events out := by
  match events, h with
  | .done :: rest, h =>
    rw [coordinator_done] at h
    exact Or.inr (Or.inr ⟨[], rest, rfl, by decide, allFailed_nil, (Option.some.inj h).symm⟩)
  | .result r₁ :: rest, h =>
    cases h₁ : r₁.Error with
    | none =>
      rw [coordinator_success r₁ h₁] at h
      exact Or.inl ⟨[], rest, r₁, rfl, by decide, allFailed_nil, h₁, (Option.some.inj h).symm⟩
    | some e₁ =>
      match rest, h with
      | [], h => simp [coordinator, selectLoop, h₁] at h
      | .done :: rest, h =>
        rw [coordinator_failure_done r₁ e₁ h₁] at h
        exact Or.inr (Or.inr ⟨[Event.result r₁], rest, rfl, Nat.lt_succ_self 1,
          allFailed_singleton r₁ e₁ h₁, (Option.some.inj h).symm⟩)
      | .result r₂ :: rest, h =>
        cases h₂ : r₂.Error with
        | none =>
          rw [coordinator_failure_success r₁ e₁ h₁ r₂ h₂] at h
          exact Or.inl ⟨[Event.result r₁], rest, r₂, rfl, Nat.lt_succ_self 1,
            allFailed_singleton r₁ e₁ h₁, h₂, (Option.some.inj h).symm⟩
        | some e₂ =>
          rw [coordinator_two_failures r₁ r₂ e₁ e₂ h₁ h₂] at h
          exact Or.inr (Or.inl ⟨r₁, r₂, e₁, e₂, rest, rfl, h₁, h₂, (Option.some.inj h).symm⟩)

/-- The outcome of the events excludes the shapes of the two other outcomes. -/
theorem outcome_exclusive (events : List Event) (out : String)
    (h : IsSuccessOf events out ∨ IsFailureOf events out ∨ IsTimeoutOf events out) :
    (IsSuccessOf events out ∧ ¬ IsFailureOutput out ∧ ¬ IsTimeoutOutput out)
    ∨ (¬ IsSuccessOutput out ∧ IsFailureOf events out ∧ ¬ IsTimeoutOutput out)
    ∨ (¬ IsSuccessOutput out ∧ ¬ IsFailureOutput out ∧ IsTimeoutOf events out) := by
  rcases h with hs | hf | ht
  · have hd : out.data.head? = some 'R' := by
      obtain ⟨pre, rest, res, -, -, -, -, rfl⟩ := hs
      exact successText_head res
    exact Or.inl ⟨hs, not_failure_of_head hd (by decide), not_timeout_of_head hd (by decide)⟩
  · have hd : out.data.head? = some 'e' := by
      obtain ⟨r₁, r₂, e₁, e₂, rest, -, -, -, rfl⟩ := hf
      rw [String.append_assoc, failureText_head]
    exact Or.inr (Or.inl
      ⟨not_success_of_head hd (by decide), hf, not_timeout_of_head hd (by decide)⟩)
  · have hd : out.data.head? = some 'T' := by
      obtain ⟨pre, rest, -, -, -, rfl⟩ := ht
      exact timeoutText_head
    exact Or.inr (Or.inr
      ⟨not_success_of_head hd (by decide), not_failure_of_head hd (by decide), ht⟩)

/-- C4: for every invocation with a postal-code argument and every order of arrival, the text
written by `main` is exactly one outcome of the events consumed and nothing else: the success
block of the first result without error, or the two error entries of the two failed results, or
the timeout notice; it has the shape of neither of the two other outcomes. `main` has written it
once two events or the deadline were consumed. -/
theorem exactly_one_outcome (args : List String) (net : HTTP) (arrivals : List Arrival)
    (hargs : 2 ≤ args.length) :
    (∀ out, (main args net arrivals).stdout = some out →
      (IsSuccessOf (arrivals.flatMap (arrivalEvents net (args.get ⟨1, hargs⟩))) out
        ∧ ¬ IsFailureOutput out ∧ ¬ IsTimeoutOutput out)
      ∨ (¬ IsSuccessOutput out
        ∧ IsFailureOf (arrivals.flatMap (arrivalEvents net (args.get ⟨1, hargs⟩))) out
        ∧ ¬ IsTimeoutOutput out)
      ∨ (¬ IsSuccessOutput out ∧ ¬ IsFailureOutput out
        ∧ IsTimeoutOf (arrivals.flatMap (arrivalEvents net (args.get ⟨1, hargs⟩))) out))
    ∧ ((2 ≤ arrivals.length ∨ Arrival.deadline ∈ arrivals) →
      ∃ out, (main args net arrivals).stdout = some out) := by
  rw [main_stdout args net arrivals hargs]
  constructor
  · intro out h
    exact outcome_exclusive _ out (coordinator_outcome _ out h)
  · intro h
    apply coordinator_isSome
    rcases h with h | h
    · exact Or.inl (by rw [flatMap_arrivalEvents_length]; exact h)
    · exact Or.inr (done_mem_flatMap_arrivalEvents net _ arrivals h)

theorem exactly_one_outcome_witness :
    (¬ IsSuccessOutput timeoutText ∧ ¬ IsFailureOutput timeoutText
      ∧ IsTimeoutOf ([Arrival.sent Provider.viaCEP, Arrival.deadline].flatMap
          (arrivalEvents (statusNet 500) "01311000")) timeoutText)
    ∧ ∃ out, (main ["cep", "01311000"] (statusNet 500)
          [Arrival.sent Provider.viaCEP, Arrival.deadline]).stdout = some out := by
  have h := exactly_one_outcome ["cep", "01311000"] (statusNet 500)
    [Arrival.sent Provider.viaCEP, Arrival.deadline] (by decide)
  refine ⟨?_, h.2 (Or.inl (by decide))⟩
  rcases h.1 timeoutText (by decide) with h₁ | h₂ | h₃
  · exact absurd rfl h₁.2.2
  · exact absurd rfl h₂.2.2
  · exact h₃

/-! ### The provider clients -/

theorem storeMember_skip {α : Type} (info : StructInfo α) (st : α × Option GoError)
    (m : String × Json) (h : lookupField info.tags m.1 = none) : storeMember info st m = st := by
  simp [storeMember, h]

theorem foldl_storeMember_skip {α : Type} (info : StructInfo α) (members : List (String × Json)) :
    ∀ st : α × Option GoError, (∀ m ∈ members, lookupField info.tags m.1 = none) →
      members.foldl (storeMember info) st = st := by
  induction members with
  | nil => intro st _; rfl
  | cons m rest ih =>
    intro st h
    rw [List.foldl_cons, storeMember_skip info st m (h m (by simp))]
    exact ih st (fun m' hm' => h m' (by simp [hm']))

theorem storeMember_keeps_error {α : Type} (info : StructInfo α) (st : α × Option GoError)
    (m : String × Json) (h : st.2 ≠ none) : (storeMember info st m).2 ≠ none := by
  unfold storeMember
  split
  · exact h
  · split
    · exact h
    · exact h
    · cases hst : st.2 with
      | none => exact absurd hst h
      | some e => simp [saveError]

theorem foldl_storeMember_keeps_error {α : Type} (info : StructInfo α)
    (members : List (String × Json)) :
    ∀ st : α × Option GoError, st.2 ≠ none → (members.foldl (storeMember info) st).2 ≠ none := by
  induction members with
  | nil => intro st h; exact h
  | cons m rest ih =>
    intro st h
    rw [List.foldl_cons]
    exact ih _ (storeMember_keeps_error info st m h)

theorem storeMember_mismatch {α : Type} (info : StructInfo α) (st : α × Option GoError)
    (m : String × Json) (hkey : lookupField info.tags m.1 ≠ none)
    (hval : m.2.isStringOrNull = false) : (storeMember info st m).2 ≠ none := by
  obtain ⟨tag, htag⟩ := Option.ne_none_iff_exists'.mp hkey
  unfold storeMember
  rw [htag]
  cases hv : m.2 with
  | string s => simp [hv, Json.isStringOrNull] at hval
  | null => simp [hv, Json.isStringOrNull] at hval
  | bool b => cases hst : st.2 <;> simp [saveError, hst]
  | number l => cases hst : st.2 <;> simp [saveError, hst]
  | array l => cases hst : st.2 <;> simp [saveError, hst]
  | object l => cases hst : st.2 <;> simp [saveError, hst]

theorem foldl_storeMember_mismatch {α : Type} (info : StructInfo α)
    (members : List (String × Json)) :
    ∀ st : α × Option GoError,
      (∃ m ∈ members, lookupField info.tags m.1 ≠ none ∧ m.2.isStringOrNull = false) →
      (members.foldl (storeMember info) st).2 ≠ none := by
  induction members with
  | nil => intro st h; simp at h
  | cons m rest ih =>
    intro st h
    obtain ⟨m', hm', hkey, hval⟩ := h
    rw [List.foldl_cons]
    rcases List.mem_cons.mp hm' with rfl | hrest
    · exact foldl_storeMember_keeps_error info rest _ (storeMember_mismatch info st m' hkey hval)
    · exact ih _ ⟨m', hrest, hkey, hval⟩

theorem jsonUnmarshal_decodesAs {α : Type} (info : StructInfo α) (zero : α) (body : Body) :
    DecodesAs info zero body (jsonUnmarshal info body zero) := by
  refine ⟨rfl, ?_, ?_, ?_, ?_⟩
  · rintro e rfl
    rfl
  · rintro v rfl hv
    cases v <;> simp [jsonUnmarshal, Json.isObjectOrNull] at hv ⊢
  · rintro members rfl h
    exact foldl_storeMember_mismatch info members _ h
  · rintro members rfl h
    exact foldl_storeMember_skip info members _ h

theorem fetchFromBrasilAPI_ok (net : HTTP) (cep : String) (resp : Response) (body : Body)
    (hreq : net.newRequest "GET" (brasilAPIURL cep) = none)
    (hrt : net.roundTrip "GET" (brasilAPIURL cep) = .ok resp)
    (hstatus : resp.StatusCode = 200) (hbody : resp.Body = .ok body) :
    fetchFromBrasilAPI net cep = jsonUnmarshal brasilAPIInfo body BrasilAPIResponse.zero := by
  simp [fetchFromBrasilAPI, hreq, hrt, hstatus, hbody]

theorem fetchFromViaCEP_ok (net : HTTP) (cep : String) (resp : Response) (body : Body)
    (hreq : net.newRequest "GET" (viaCEPURL cep) = none)
    (hrt : net.roundTrip "GET" (viaCEPURL cep) = .ok resp)
    (hstatus : resp.StatusCode = 200) (hbody : resp.Body = .ok body) :
    fetchFromViaCEP net cep = jsonUnmarshal viaCEPInfo body ViaCEPResponse.zero := by
  simp [fetchFromViaCEP, hreq, hrt, hstatus, hbody]

/-- C5: both provider clients classify the answer of the network in the same way: an error of
the transport (building the request, sending it, reading the body) is returned as it is, a
status code other than 200 gives the error "status code: <code>", status 200 with a body the
decoder rejects gives the decoder's error, and status 200 with a body the decoder accepts gives
a nil error with the decoded record. -/
theorem clients_classify_alike (net : HTTP) (cep : String) :
    Classifies BrasilAPIResponse.zero
        (fun body => jsonUnmarshal brasilAPIInfo body BrasilAPIResponse.zero)
        (net.newRequest "GET" (brasilAPIURL cep)) (net.roundTrip "GET" (brasilAPIURL cep))
        (fetchFromBrasilAPI net cep)
    ∧ Classifies ViaCEPResponse.zero
        (fun body => jsonUnmarshal viaCEPInfo body ViaCEPResponse.zero)
        (net.newRequest "GET" (viaCEPURL cep)) (net.roundTrip "GET" (viaCEPURL cep))
        (fetchFromViaCEP net cep) := by
  constructor
  · refine ⟨?_, ?_, ?_, ?_, ?_, ?_⟩
    · intro err h
      simp [fetchFromBrasilAPI, h]
    · intro err h₁ h₂
      simp [fetchFromBrasilAPI, h₁, h₂]
    · intro resp h₁ h₂ h₃
      simp [fetchFromBrasilAPI, h₁, h₂, h₃, statusError]
    · intro resp err h₁ h₂ h₃ h₄
      simp [fetchFromBrasilAPI, h₁, h₂, h₃, h₄]
    · intro resp body err h₁ h₂ h₃ h₄ h₅
      rw [fetchFromBrasilAPI_ok net cep resp body h₁ h₂ h₃ h₄]
      exact h₅
    · intro resp body h₁ h₂ h₃ h₄ h₅
      rw [fetchFromBrasilAPI_ok net cep resp body h₁ h₂ h₃ h₄]
      exact Prod.ext rfl h₅
  · refine ⟨?_, ?_, ?_, ?_, ?_, ?_⟩
    · intro err h
      simp [fetchFromViaCEP, h]
    · intro err h₁ h₂
      simp [fetchFromViaCEP, h₁, h₂]
    · intro resp h₁ h₂ h₃
      simp [fetchFromViaCEP, h₁, h₂, h₃, statusError]
    · intro resp err h₁ h₂ h₃ h₄
      simp [fetchFromViaCEP, h₁, h₂, h₃, h₄]
    · intro resp body err h₁ h₂ h₃ h₄ h₅
      rw [fetchFromViaCEP_ok net cep resp body h₁ h₂ h₃ h₄]
      exact h₅
    · intro resp body h₁ h₂ h₃ h₄ h₅
      rw [fetchFromViaCEP_ok net cep resp body h₁ h₂ h₃ h₄]
      exact Prod.ext rfl h₅

/-- C6, as the code behaves: for a response with status 200 each client returns what the
decoder makes of the body. The error is non-nil for a body that is not a JSON text, for a value
that is neither an object nor null, and for an object with an expected field holding a value
that is neither a string nor null; an object with none of the expected fields gives the empty
record with a nil error. -/
theorem parse_failure_is_decoder_error (net : HTTP) (cep : String) :
    (∀ resp body, net.newRequest "GET" (brasilAPIURL cep) = none →
      net.roundTrip "GET" (brasilAPIURL cep) = .ok resp → resp.StatusCode = 200 →
      resp.Body = .ok body →
      DecodesAs brasilAPIInfo BrasilAPIResponse.zero body (fetchFromBrasilAPI net cep))
    ∧ (∀ resp body, net.newRequest "GET" (viaCEPURL cep) = none →
      net.roundTrip "GET" (viaCEPURL cep) = .ok resp → resp.StatusCode = 200 →
      resp.Body = .ok body →
      DecodesAs viaCEPInfo ViaCEPResponse.zero body (fetchFromViaCEP net cep)) := by
  constructor
  · intro resp body h₁ h₂ h₃ h₄
    rw [fetchFromBrasilAPI_ok net cep resp body h₁ h₂ h₃ h₄]
    exact jsonUnmarshal_decodesAs _ _ _
  · intro resp body h₁ h₂ h₃ h₄
    rw [fetchFromViaCEP_ok net cep resp body h₁ h₂ h₃ h₄]
    exact jsonUnmarshal_decodesAs _ _ _

theorem parse_failure_is_decoder_error_witness :
    DecodesAs viaCEPInfo ViaCEPResponse.zero (.json (.object [("erro", .bool true)]))
      (fetchFromViaCEP erroReplyNet "99999999") :=
  (parse_failure_is_decoder_error erroReplyNet "99999999").2
    ⟨200, .ok (.json (.object [("erro", .bool true)]))⟩ _ rfl rfl rfl rfl

/-- C6 fails on the code: ViaCEP's reply `{"erro": true}` with status 200 has none of the
expected fields, and `fetchFromViaCEP` returns the empty record with a nil error. -/
theorem erro_reply_is_success :
    (∀ m ∈ [("erro", Json.bool true)], lookupField viaCEPInfo.tags m.1 = none)
    ∧ erroReplyNet.roundTrip "GET" (viaCEPURL "99999999")
        = .ok ⟨200, .ok (.json (.object [("erro", .bool true)]))⟩
    ∧ fetchFromViaCEP erroReplyNet "99999999" = (ViaCEPResponse.zero, none) := by
  refine ⟨by decide, rfl, by decide⟩

theorem clients_classify_alike_witness :
    fetchFromBrasilAPI (statusNet 503) "01311000"
        = (BrasilAPIResponse.zero, some ("status code: " ++ toString (503 : Int)))
    ∧ fetchFromViaCEP (statusNet 200) "01311000" = (ViaCEPResponse.zero, none) :=
  ⟨(clients_classify_alike (statusNet 503) "01311000").1.2.2.1
      ⟨503, .ok (.json (.object []))⟩ rfl rfl (by decide),
    (clients_classify_alike (statusNet 200) "01311000").2.2.2.2.2.2
      ⟨200, .ok (.json (.object []))⟩ (.json (.object [])) rfl rfl rfl rfl rfl⟩

/-! ### The `select` statement and the deadline -/

/-- C7, as the code behaves: when `ctx.Done()` is closed at a `select` of the loop, the deadline
case is ready and consuming it gives the timeout notice; it is the only ready case when
`resultChan` is empty, and when a result is buffered both cases are ready, so the `select` may
consume either. -/
theorem expired_deadline_select (s : SelectState) (i : Nat) (firstError : Option GoError)
    (rest : List Event) (hdone : s.ctxDone = true) (hi : i < 2) :
    (Event.done ∈ selectReady s
      ∧ selectLoop i firstError (Event.done :: rest) = .returned timeoutText)
    ∧ (s.resultChan = [] → selectReady s = [Event.done])
    ∧ (∀ res queue, s.resultChan = res :: queue →
        selectReady s = [Event.result res, Event.done]) := by
  refine ⟨⟨?_, selectLoop_done i hi firstError rest⟩, ?_, ?_⟩
  · simp [selectReady, hdone]
  · intro h
    simp [selectReady, hdone, h]
  · intro res queue h
    simp [selectReady, hdone, h]

theorem expired_deadline_select_witness :
    (Event.done ∈ selectReady ⟨[], true⟩
      ∧ selectLoop 1 (some "erro") [Event.done] = .returned timeoutText)
    ∧ (([] : List Result) = [] → selectReady ⟨[], true⟩ = [Event.done])
    ∧ (∀ res queue, ([] : List Result) = res :: queue →
        selectReady ⟨[], true⟩ = [Event.result res, Event.done]) :=
  expired_deadline_select ⟨[], true⟩ 1 (some "erro") [] rfl (by decide)

/-- C7 fails on the code: with the deadline elapsed and a successful result buffered, the
`select` may receive the result, and the loop then prints the success block, which is not the
timeout notice. -/
theorem expired_deadline_may_print_success :
    (SelectState.mk [brasilOK] true).ctxDone = true
    ∧ Event.result brasilOK ∈ selectReady (SelectState.mk [brasilOK] true)
    ∧ coordinator [Event.result brasilOK] = some (successText brasilOK)
    ∧ IsSuccessOutput (successText brasilOK)
    ∧ successText brasilOK ≠ timeoutText := by
  refine ⟨rfl, by decide, by decide, ⟨brasilOK, rfl, rfl⟩, by decide⟩

/-! ### `main` -/

/-- C8: without a postal-code argument `main` writes only the usage message, starts no lookup
and writes none of the three outcomes; with an argument it starts both lookups with the first
argument as postal code, and the coordinator consumes their results. -/
theorem usage_without_argument (args : List String) (net : HTTP) (arrivals : List Arrival) :
    (args.length < 2 →
      main args net arrivals
        = { spawned := [], stdout := some "Por favor, forneça o CEP como argumento.\n" }
      ∧ ¬ IsSuccessOutput "Por favor, forneça o CEP como argumento.\n"
      ∧ ¬ IsFailureOutput "Por favor, forneça o CEP como argumento.\n"
      ∧ ¬ IsTimeoutOutput "Por favor, forneça o CEP como argumento.\n")
    ∧ (∀ h : 2 ≤ args.length,
      main args net arrivals
        = { spawned := [(Provider.brasilAPI, args.get ⟨1, h⟩),
                        (Provider.viaCEP, args.get ⟨1, h⟩)],
            stdout := coordinator (arrivals.flatMap (arrivalEvents net (args.get ⟨1, h⟩))) }) := by
  constructor
  · intro h
    refine ⟨by simp [main, h, usageText], ?_, ?_, ?_⟩
    · exact not_success_of_head usageText_head (by decide)
    · exact not_failure_of_head usageText_head (by decide)
    · exact not_timeout_of_head usageText_head (by decide)
  · intro h
    simp [main, Nat.not_lt.mpr h]

theorem usage_without_argument_witness :
    main ["cep"] erroReplyNet [Arrival.sent Provider.brasilAPI]
        = { spawned := [], stdout := some "Por favor, forneça o CEP como argumento.\n" }
    ∧ (main ["cep", "01311000", "x"] erroReplyNet [Arrival.deadline]).spawned
        = [(Provider.brasilAPI, "01311000"), (Provider.viaCEP, "01311000")] :=
  ⟨((usage_without_argument ["cep"] erroReplyNet [Arrival.sent Provider.brasilAPI]).1
      (by decide)).1,
    congrArg MainRun.spawned
      ((usage_without_argument ["cep", "01311000", "x"] erroReplyNet [Arrival.deadline]).2
        (by decide))⟩

theorem fetchFromBrasilAPI_congr (net net' : HTTP) (cep cep' : String)
    (hreq : net.newRequest "GET" (brasilAPIURL cep) = net'.newRequest "GET" (brasilAPIURL cep'))
    (hrt : net.roundTrip "GET" (brasilAPIURL cep) = net'.roundTrip "GET" (brasilAPIURL cep')) :
    fetchFromBrasilAPI net cep = fetchFromBrasilAPI net' cep' := by
  simp only [fetchFromBrasilAPI, hreq, hrt]

theorem fetchFromViaCEP_congr (net net' : HTTP) (cep cep' : String)
    (hreq : net.newRequest "GET" (viaCEPURL cep) = net'.newRequest "GET" (viaCEPURL cep'))
    (hrt : net.roundTrip "GET" (viaCEPURL cep) = net'.roundTrip "GET" (viaCEPURL cep')) :
    fetchFromViaCEP net cep = fetchFromViaCEP net' cep' := by
  simp only [fetchFromViaCEP, hreq, hrt]

theorem string_append_left_cancel (a b c : String) (h : a ++ b = a ++ c) : b = c := by
  apply String.ext
  have := congrArg String.data h
  simpa [String.data_append] using this

theorem string_append_right_cancel (a b c : String) (h : a ++ c = b ++ c) : a = b := by
  apply String.ext
  have := congrArg String.data h
  simpa [String.data_append] using this

/-- C9: for every postal-code string the URL requested by each client is the fixed base URL
with the string inserted unchanged, "https://brasilapi.com.br/api/cep/v1/" ++ cep for BrasilAPI
and "http://viacep.com.br/ws/" ++ cep ++ "/json/" for ViaCEP, and distinct strings give distinct
URLs. The client does not look at the string otherwise: two lookups, for any two postal codes,
return the same when the network answers the same for the method GET and their URLs; and for
every string, when the request for that URL is answered with status 200, the client returns
what the decoder makes of the body, so that no string is rejected by the client. -/
theorem url_forwards_postal_code (cep : String) :
    (brasilAPIURL cep = "https://brasilapi.com.br/api/cep/v1/" ++ cep
      ∧ viaCEPURL cep = "http://viacep.com.br/ws/" ++ cep ++ "/json/")
    ∧ (∀ cep', (brasilAPIURL cep = brasilAPIURL cep' → cep = cep')
        ∧ (viaCEPURL cep = viaCEPURL cep' → cep = cep'))
    ∧ (∀ (net net' : HTTP) (cep' : String),
        (net.newRequest "GET" ("https://brasilapi.com.br/api/cep/v1/" ++ cep)
            = net'.newRequest "GET" ("https://brasilapi.com.br/api/cep/v1/" ++ cep') →
          net.roundTrip "GET" ("https://brasilapi.com.br/api/cep/v1/" ++ cep)
            = net'.roundTrip "GET" ("https://brasilapi.com.br/api/cep/v1/" ++ cep') →
          fetchFromBrasilAPI net cep = fetchFromBrasilAPI net' cep')
        ∧ (net.newRequest "GET" ("http://viacep.com.br/ws/" ++ cep ++ "/json/")
            = net'.newRequest "GET" ("http://viacep.com.br/ws/" ++ cep' ++ "/json/") →
          net.roundTrip "GET" ("http://viacep.com.br/ws/" ++ cep ++ "/json/")
            = net'.roundTrip "GET" ("http://viacep.com.br/ws/" ++ cep' ++ "/json/") →
          fetchFromViaCEP net cep = fetchFromViaCEP net' cep'))
    ∧ (∀ (net : HTTP) (resp : Response) (body : Body),
        (net.newRequest "GET" ("https://brasilapi.com.br/api/cep/v1/" ++ cep) = none →
          net.roundTrip "GET" ("https://brasilapi.com.br/api/cep/v1/" ++ cep) = .ok resp →
          resp.StatusCode = 200 → resp.Body = .ok body →
          fetchFromBrasilAPI net cep = jsonUnmarshal brasilAPIInfo body BrasilAPIResponse.zero)
        ∧ (net.newRequest "GET" ("http://viacep.com.br/ws/" ++ cep ++ "/json/") = none →
          net.roundTrip "GET" ("http://viacep.com.br/ws/" ++ cep ++ "/json/") = .ok resp →
          resp.StatusCode = 200 → resp.Body = .ok body →
          fetchFromViaCEP net cep = jsonUnmarshal viaCEPInfo body ViaCEPResponse.zero)) := by
  refine ⟨⟨rfl, rfl⟩, ?_, ?_, ?_⟩
  · intro cep'
    constructor
    · intro h
      exact string_append_left_cancel _ _ _ h
    · intro h
      exact string_append_left_cancel _ _ _ (string_append_right_cancel _ _ _ h)
  · intro net net' cep'
    exact ⟨fetchFromBrasilAPI_congr net net' cep cep', fetchFromViaCEP_congr net net' cep cep'⟩
  · intro net resp body
    exact ⟨fetchFromBrasilAPI_ok net cep resp body, fetchFromViaCEP_ok net cep resp body⟩

theorem url_forwards_postal_code_witness :
    (brasilAPIURL " 01311-000x" = "https://brasilapi.com.br/api/cep/v1/ 01311-000x"
      ∧ viaCEPURL " 01311-000x" = "http://viacep.com.br/ws/ 01311-000x/json/")
    ∧ fetchFromBrasilAPI erroReplyNet " 01311-000x" = fetchFromBrasilAPI erroReplyNet "01311000"
    ∧ fetchFromViaCEP (statusNet 200) " 01311-000x"
        = jsonUnmarshal viaCEPInfo (.json (.object [])) ViaCEPResponse.zero
    ∧ fetchFromViaCEP (statusNet 200) " 01311-000x" = (ViaCEPResponse.zero, none) :=
  ⟨⟨(url_forwards_postal_code " 01311-000x").1.1.trans (by decide),
      (url_forwards_postal_code " 01311-000x").1.2.trans (by decide)⟩,
    ((url_forwards_postal_code " 01311-000x").2.2.1 erroReplyNet erroReplyNet "01311000").1
      rfl rfl,
    ((url_forwards_postal_code " 01311-000x").2.2.2 (statusNet 200)
      ⟨200, .ok (.json (.object []))⟩ (.json (.object []))).2 rfl rfl rfl rfl,
    (((url_forwards_postal_code " 01311-000x").2.2.2 (statusNet 200)
      ⟨200, .ok (.json (.object []))⟩ (.json (.object []))).2 rfl rfl rfl rfl).trans
      (by decide)⟩

/-- C10: each of the two goroutines sends exactly one result for whatever its fetch function
returns, tagged with its own provider name and carrying the data and the error of the fetch
unchanged; the two results that are sent in all do not exceed the capacity of the channel. -/
theorem one_result_per_task (net : HTTP) (cep : String) :
    brasilAPITask net cep
        = [{ APIName := "BrasilAPI", Data := Data.brasilAPI (fetchFromBrasilAPI net cep).1,
             Error := (fetchFromBrasilAPI net cep).2 }]
    ∧ viaCEPTask net cep
        = [{ APIName := "ViaCEP", Data := Data.viaCEP (fetchFromViaCEP net cep).1,
             Error := (fetchFromViaCEP net cep).2 }]
    ∧ (brasilAPITask net cep ++ viaCEPTask net cep).length = 2
    ∧ (brasilAPITask net cep ++ viaCEPTask net cep).length ≤ resultChanCapacity := by
  refine ⟨rfl, rfl, rfl, ?_⟩
  show 2 ≤ 2
  exact Nat.le_refl 2

end CepRace
